import Mathlib

/-!
Verification of the Ladybug "Tilt And Orientation Factor" component
(`src/Ladybug_Tilt And Orientation Factor.py`, IronPython 2 / Grasshopper).

Shallow embedding notes:
* The script runs under IronPython 2: `/` on two Python ints is floor
  division, `round` rounds half away from zero, `int()` truncates toward
  zero, and dividing a float by `0.0` raises `ZeroDivisionError` (it never
  yields IEEE infinities).  Numeric values are modelled with `ℚ`
  (idealised real arithmetic, as the spec phrases its formulas), Python
  ints with `ℕ`/`ℤ`, and raising an exception with `Except String`/`Option`.
* `lb_photovoltaics.NRELsunPosition` / `POAirradiance` live in the Ladybug
  library, not in this source file; the per-hour plane-of-array irradiance
  is abstracted as a function `E : ℕ → ℚ → ℚ → ℚ` of (hour index, tilt,
  azimuth).  The spec's §4.2 contract that Epoa is floored at 0 is the
  predicate `EpoaNonneg`.
-/

/-- Python 2 `round(q)` (to the nearest integer, ties away from zero),
on exact rationals. -/
def pyRound (q : ℚ) : ℤ :=
  if 0 ≤ q then ⌊q + 1/2⌋ else -⌊-q + 1/2⌋

/-- Python 2 `round(q, 1)`. -/
def pyRound1 (q : ℚ) : ℚ :=
  (pyRound (q * 10) : ℚ) / 10

/-- Python 2 `round(q, 2)`. -/
def pyRound2 (q : ℚ) : ℚ :=
  (pyRound (q * 100) : ℚ) / 100

/-- Python `int(q)` on a float value: truncation toward zero
(`Int` division in Lean is already T-division). -/
def pyInt (q : ℚ) : ℤ :=
  q.num / (q.den : ℤ)

/-- Python `max` over a list of floats.  Python raises `ValueError` on an
empty sequence; in this component the list always has `(precision+1)^2 ≥ 1`
entries, so the empty case (defaulted to 0 here) is never reached. -/
def pyMax : List ℚ → ℚ
  | [] => 0
  | x :: xs => xs.foldl max x

/-- Error text for Python 2 float division by zero. -/
def zeroDivMsg : String := "ZeroDivisionError: float division"

/-- Python float division, which raises `ZeroDivisionError` on a zero
denominator instead of producing a value. -/
def pyDiv (a b : ℚ) : Except String ℚ :=
  if b = 0 then Except.error zeroDivMsg else Except.ok (a / b)

/-- Lines 522-524: `TOF = round((totalRadiationPerYear /
maximalTotalRadiationPerYear) * 100, 1)` followed by
`if TOF > 100: TOF = 100`. -/
def computeTOF (totalRadiationPerYear maximalTotalRadiationPerYear : ℚ) :
    Except String ℚ :=
  (pyDiv totalRadiationPerYear maximalTotalRadiationPerYear).map fun r =>
    let TOF := pyRound1 (r * 100)
    if TOF > 100 then 100 else TOF

/-- Line 525: `TSRF = round(TOF * ((100 - annualShading) / 100), 1)`. -/
def computeTSRF (TOF annualShading : ℚ) : ℚ :=
  pyRound1 (TOF * ((100 - annualShading) / 100))

/-- Line 360: `stepSrfTilt = 90/precision`.  `precision` must be a Python
int for the later `range(0, precision+1, 1)` calls to work, so under
IronPython 2 this is integer floor division (`ℕ` division). -/
def stepSrfTilt (precision : ℕ) : ℕ := 90 / precision

/-- Line 361: `stepSrfAzimuth = 180/precision`, again int floor division. -/
def stepSrfAzimuth (precision : ℕ) : ℕ := 180 / precision

/-- Lines 363-364 / 375-376: `srfTiltTOFList.append(stepSrfTilt*i)` for
`i in range(0, precision+1, 1)` — identical in the clockwise and
counterclockwise branches. -/
def srfTiltTOFList (precision : ℕ) : List ℕ :=
  (List.range (precision + 1)).map fun i => stepSrfTilt precision * i

/-- Lines 371-372 / 383-384: the single `if srfAzimuth >= 360:
srfAzimuth = srfAzimuth-360` wrap applied to southern-hemisphere azimuths. -/
def azimuthWrap (a : ℕ) : ℕ := if a ≥ 360 then a - 360 else a

/-- Lines 362-385: the azimuth sample list.  Clockwise with
`latitude >= 0` iterates `range(precision, -1, -1)` over `90 +
stepSrfAzimuth*i`; clockwise with `latitude < 0` iterates ascending over
`270 + stepSrfAzimuth*i` wrapped at 360; the counterclockwise branches
swap the iteration directions. -/
def srfAzimuthTOFList (anglesClockwise : Bool) (latitude : ℚ)
    (precision : ℕ) : List ℕ :=
  if anglesClockwise then
    if 0 ≤ latitude then
      ((List.range (precision + 1)).reverse).map fun i =>
        90 + stepSrfAzimuth precision * i
    else
      (List.range (precision + 1)).map fun i =>
        azimuthWrap (270 + stepSrfAzimuth precision * i)
  else
    if 0 ≤ latitude then
      (List.range (precision + 1)).map fun i =>
        90 + stepSrfAzimuth precision * i
    else
      ((List.range (precision + 1)).reverse).map fun i =>
        azimuthWrap (270 + stepSrfAzimuth precision * i)

/-- Modelled from the spec: `lb_photovoltaics.NRELsunPosition` and
`lb_photovoltaics.POAirradiance` (lines 397-398 and 517-518) are Ladybug
library code, not part of this source file.  For the fixed location,
weather series and albedo of one run, the hourly plane-of-array irradiance
`Epoa` is a function of the hour index `g` (enumerating `HOYs =
range(1, 8761)`, so `0 ≤ g < 8760`) and of the surface tilt/azimuth; it is
abstracted as `E : ℕ → ℚ → ℚ → ℚ`.  Spec §4.2 step 5 floors `Epoa` at 0,
which is this predicate. -/
def EpoaNonneg (E : ℕ → ℚ → ℚ → ℚ) : Prop := ∀ g t a, 0 ≤ E g t a

/-- Lines 395-399: the inner 8760-hour accumulation for one grid cell,
`totalRadiationPerYear += Epoa` over `enumerate(HOYs)`. -/
def gridCellTotal (E : ℕ → ℚ → ℚ → ℚ) (srfTiltTOF srfAzimuthTOF : ℚ) : ℚ :=
  (List.range 8760).foldl
    (fun totalRadiationPerYear g =>
      totalRadiationPerYear + E g srfTiltTOF srfAzimuthTOF) 0

/-- Lines 392-400: `totalRadiationPerYearL`, appended tilt-major /
azimuth-minor over the two sample lists. -/
def gridTotals (E : ℕ → ℚ → ℚ → ℚ) (tiltList azimuthList : List ℚ) :
    List ℚ :=
  tiltList.flatMap fun srfTiltTOF =>
    azimuthList.map fun srfAzimuthTOF =>
      gridCellTotal E srfTiltTOF srfAzimuthTOF

/-- Lines 514-519: the separate 8760-hour loop for the analysed surface's
own tilt/azimuth (the source duplicates the grid-cell loop verbatim). -/
def analysedTotal (E : ℕ → ℚ → ℚ → ℚ) (srfTiltD srfAzimuthD : ℚ) : ℚ :=
  (List.range 8760).foldl
    (fun totalRadiationPerYear i =>
      totalRadiationPerYear + E i srfTiltD srfAzimuthD) 0

/-- A degenerate weather series: zero irradiance at every hour. -/
def zeroE : ℕ → ℚ → ℚ → ℚ := fun _ _ _ => 0

/-- A constant weather series: one unit of irradiance at every hour. -/
def oneE : ℕ → ℚ → ℚ → ℚ := fun _ _ _ => 1

/-- Lines 125-126: `if (annualShading == None) or (annualShading < 0) or
(annualShading > 100): annualShading = 0`. -/
def annualShadingDefaulted (annualShading : Option ℚ) : ℚ :=
  match annualShading with
  | none => 0
  | some v => if v < 0 ∨ v > 100 then 0 else v

/-- Lines 128-129: `if (albedo == None) or (albedo < 0) or (albedo > 1):
albedo = 0.2`. -/
def albedoDefaulted (albedo : Option ℚ) : ℚ :=
  match albedo with
  | none => 1/5
  | some v => if v < 0 ∨ v > 1 then 1/5 else v

/-- Lines 131-132: `if (precision == None) or (precision < 1) or
(precision > 100): precision = 2`. -/
def precisionDefaulted (precision : Option ℚ) : ℚ :=
  match precision with
  | none => 2
  | some v => if v < 1 ∨ v > 100 then 2 else v

/-- The two accepted shapes of the `_PVsurface` input (line 205 / 223):
a single-face brep, or a number giving the surface area. -/
inductive PVInputType
  | brep
  | number

/-- Lines 251-279, `srfAzimuthAngle`.  `brepAzimuthResult` stands for the
pair returned by the external `lb_photovoltaics.srfAzimuthAngle(PVsurface)`
library call (azimuth, and either `None` — mapped to `none`, meaning
"needs to be calculated" after the line 268-269 fixup — or a tilt value).
The result is `none` exactly when Python would raise an
UnboundLocalError at `round(srfAzimuthD, 1)` because neither the
`latitude > 0` nor the `latitude < 0` defaulting branch ran. -/
def srfAzimuthAngle (brepAzimuthResult : ℚ × Option ℚ)
    (PVsurfaceAzimuthAngle : Option ℚ) (PVsurfaceInputType : PVInputType)
    (latitude : ℚ) : Option (ℚ × Option ℚ) :=
  match PVsurfaceAzimuthAngle with
  | some az =>
    if az < 0 ∨ az > 360 then
      if 0 < latitude then some (pyRound1 180, none)
      else if latitude < 0 then some (pyRound1 0, none)
      else none
    else some (pyRound1 az, none)
  | none =>
    match PVsurfaceInputType with
    | PVInputType.brep =>
      some (pyRound1 brepAzimuthResult.1, brepAzimuthResult.2)
    | PVInputType.number =>
      if 0 < latitude then some (pyRound1 180, none)
      else if latitude < 0 then some (pyRound1 0, none)
      else none

/-- Lines 282-307, `srfTiltAngle`.  `brepTilt` stands for the external
`lb_photovoltaics.srfTiltAngle(PVsurface)` result;
`surfaceTiltDCalculated = none` models the string
"needs to be calculated".  The result is `none` when Python would raise
an UnboundLocalError (a calculated tilt that is neither 0, 90 nor 180
falls through every branch). -/
def srfTiltAngle (brepTilt : ℚ) (PVsurfaceTiltAngle : Option ℚ)
    (surfaceTiltDCalculated : Option ℚ) (PVsurfaceInputType : PVInputType)
    (latitude : ℚ) : Option ℚ :=
  match PVsurfaceTiltAngle with
  | some v =>
    if v < 0 then some (pyRound1 0)
    else if v > 180 then some (pyRound1 0)
    else some (pyRound1 v)
  | none =>
    match surfaceTiltDCalculated with
    | some c => if c = 0 ∨ c = 90 ∨ c = 180 then some (pyRound1 c) else none
    | none =>
      match PVsurfaceInputType with
      | PVInputType.brep => some (pyRound1 brepTilt)
      | PVInputType.number => some (pyRound1 |latitude|)

/-- The two shapes a Python number takes after lines 492-493: the rounded
numerator stays a float unless `% 1 == 0`, in which case `int()` is
applied. -/
inductive PyNum
  | int (i : ℤ)
  | float (q : ℚ)

/-- The numeric value carried by a `PyNum`. -/
def pyNumVal : PyNum → ℚ
  | PyNum.int i => (i : ℚ)
  | PyNum.float q => q

/-- Whether the `int()` conversion was applied. -/
def PyNum.isInt : PyNum → Bool
  | PyNum.int _ => true
  | PyNum.float _ => false

/-- Decimal rendering of `a / 100` hundredths: integer part, a dot, and
the fractional digits with a trailing zero stripped (Python 2 `str` of a
float that carries an exact multiple of 0.01, e.g. `"3.5"`, `"3.05"`,
`"6.93"`, `"3.0"`). -/
def natDecimalStr (a : ℕ) : String :=
  if a % 100 % 10 = 0 then
    toString (a / 100) ++ "." ++ toString (a % 100 / 10)
  else if a % 100 < 10 then
    toString (a / 100) ++ "." ++ ("0" ++ toString (a % 100))
  else toString (a / 100) ++ "." ++ toString (a % 100)

/-- Python 2 `str()` of a float holding an exact multiple of 1/100 (the
only floats formatted here: `round(_, 2)` results): sign, then the decimal
digits.  `q.num * (100 / q.den)` is the value in hundredths (`q.den`
divides 100 for such values). -/
def pyFloatStr (q : ℚ) : String :=
  (if q.num * (100 / (q.den : ℤ)) < 0 then "-" else "") ++
    natDecimalStr (q.num * (100 / (q.den : ℤ))).natAbs

/-- Python 2 `"%s" % n`: `str` of an int or of a float. -/
def pyStrNum : PyNum → String
  | PyNum.int i => toString i
  | PyNum.float q => pyFloatStr q

/-- Lines 490-493: `optimalTiltNumerator = round(12*optimalTiltTangent, 2)`
and `if optimalTiltNumerator % 1 == 0: optimalTiltNumerator =
int(optimalTiltNumerator)`.  `optimalTiltTangent` stands for the
`math.tan(math.radians(optimalTiltD))` value (line 490), taken as an
input since `tan` is an external float transcendental; `% 1 == 0` on a
number is exactly "has denominator 1". -/
def optimalTiltNumerator (optimalTiltTangent : ℚ) : PyNum :=
  if (pyRound2 (12 * optimalTiltTangent)).den = 1 then
    PyNum.int (pyRound2 (12 * optimalTiltTangent)).num
  else PyNum.float (pyRound2 (12 * optimalTiltTangent))

/-- Line 494: `optimalRoofPitch = "%s/12" % optimalTiltNumerator`. -/
def optimalRoofPitch (optimalTiltTangent : ℚ) : String :=
  pyStrNum (optimalTiltNumerator optimalTiltTangent) ++ "/12"

/-- Error text for the caller-side failure on an out-of-range numeric
north: line 340 returns only 3 values while line 764 unpacks 4 names, so
Python raises a ValueError before `main` ever runs. -/
def valueErrorMsg : String := "ValueError: need more than 3 values to unpack"

/-- The `north_` component input: absent, a number, or a vector.  For a
vector, the external `Rhino.Geometry.Vector3d.VectorAngle` call inside
`angle2northClockwise` (lines 318-321) is geometry-library code; the
constructor carries its resulting counterclockwise angle in degrees. -/
inductive NorthInput
  | none
  | num (x : ℚ)
  | vec (vectorAngleD : ℚ)

/-- Lines 326-352 (`correctSrfAzimuthDforNorth`) combined with the line
764 unpacking.  Absent north: azimuth unchanged, northDeg 0.  Numeric
north in [0,360]: `northDeg = 360 - degrees(2*pi - radians(north)) =
north` in exact arithmetic, and the azimuth is shifted by northDeg and
wrapped above 360.  Numeric north outside [0,360]: line 340 returns a
3-tuple that the caller's 4-name unpacking turns into a ValueError.
Vector north: always accepted, `northDeg = 360 - vectorAngleD`. -/
def correctSrfAzimuthDforNorth (north : NorthInput) (srfAzimuthD : ℚ) :
    Except String (ℚ × ℚ) :=
  match north with
  | NorthInput.none => Except.ok (srfAzimuthD, 0)
  | NorthInput.num x =>
    if x < 0 ∨ x > 360 then Except.error valueErrorMsg
    else
      Except.ok
        (if x + srfAzimuthD > 360 then x + srfAzimuthD - 360
         else x + srfAzimuthD, x)
  | NorthInput.vec d =>
    Except.ok
      (if (360 - d) + srfAzimuthD > 360 then (360 - d) + srfAzimuthD - 360
       else (360 - d) + srfAzimuthD, 360 - d)

/-- The numeric outputs of `main` (line 527) that the spec talks about:
the grid totals, `int(maximalTotalRadiationPerYear/1000)`,
`int(totalRadiationPerYear/1000)`, the optimum angles, the roof pitch,
TOF and TSRF. -/
structure NumericOutputs where
  totalRadiationPerYearL : List ℚ
  maximalTotalRadiationPerYear : ℤ
  totalRadiationPerYear : ℤ
  optimalTiltD : ℚ
  optimalAzimuthD : ℚ
  optimalRoofPitch : String
  TOF : ℚ
  TSRF : ℚ

/-- Lines 355-527 (`main`), restricted to its numeric outputs.  The
optimum search (lines 456-487: Rhino meshes and the iterated
closest-point projection `meshesClosesPts`) is geometry-library code
abstracted as `G`, a function of the grid totals — the lifted mesh points
it works on are determined by the totals and fixed constants; `tanD`
abstracts `math.tan(math.radians(.))` of line 490.  The parameter
`correctedSrfAzimuthD` is received (line 355) but never read: every
azimuth used in the body is the uncorrected `srfAzimuthD`. -/
def mainNumeric (G : List ℚ → ℚ × ℚ) (tanD : ℚ → ℚ)
    (E : ℕ → ℚ → ℚ → ℚ) (tiltList azimuthList : List ℚ)
    (srfTiltD srfAzimuthD correctedSrfAzimuthD annualShading : ℚ) :
    Except String NumericOutputs :=
  match computeTOF (analysedTotal E srfTiltD srfAzimuthD)
      (pyMax (gridTotals E tiltList azimuthList)) with
  | Except.error e => Except.error e
  | Except.ok TOF =>
    Except.ok
      { totalRadiationPerYearL := gridTotals E tiltList azimuthList
        maximalTotalRadiationPerYear :=
          pyInt (pyMax (gridTotals E tiltList azimuthList) / 1000)
        totalRadiationPerYear :=
          pyInt (analysedTotal E srfTiltD srfAzimuthD / 1000)
        optimalTiltD := (G (gridTotals E tiltList azimuthList)).1
        optimalAzimuthD := (G (gridTotals E tiltList azimuthList)).2
        optimalRoofPitch :=
          optimalRoofPitch (tanD (G (gridTotals E tiltList azimuthList)).1)
        TOF := TOF
        TSRF := computeTSRF TOF annualShading }

/-- Whether a north input passes the line 336 range check (absent and
vector norths always do). -/
def validNorthInput : NorthInput → Prop
  | NorthInput.num x => 0 ≤ x ∧ x ≤ 360
  | _ => True

/-- Lines 763-766: the north correction followed by `main`. -/
def runPipeline (G : List ℚ → ℚ × ℚ) (tanD : ℚ → ℚ)
    (E : ℕ → ℚ → ℚ → ℚ) (tiltList azimuthList : List ℚ)
    (srfTiltD srfAzimuthD annualShading : ℚ) (north : NorthInput) :
    Except String NumericOutputs :=
  match correctSrfAzimuthDforNorth north srfAzimuthD with
  | Except.error e => Except.error e
  | Except.ok (correctedSrfAzimuthD, _northDeg) =>
    mainNumeric G tanD E tiltList azimuthList srfTiltD srfAzimuthD
      correctedSrfAzimuthD annualShading

/-- A trivial stand-in for the geometric optimum search, for the witness. -/
def G0 : List ℚ → ℚ × ℚ := fun _ => (0, 0)

/-- A trivial stand-in for `math.tan(math.radians(.))`, for the witness. -/
def tanD0 : ℚ → ℚ := fun _ => 0

-- Basic facts about the Python rounding model.

theorem pyRound_intCast (k : ℤ) : pyRound (k : ℚ) = k := by
  unfold pyRound
  split_ifs with h
  · rw [show ((k : ℚ) + 1/2) = (k : ℚ) + 1/2 by ring, Int.floor_int_add]
    norm_num
  · rw [show (-(k : ℚ) + 1/2) = ((-k : ℤ) : ℚ) + 1/2 by push_cast; ring,
      Int.floor_int_add]
    norm_num

theorem pyRound_nonneg {q : ℚ} (h : 0 ≤ q) : 0 ≤ pyRound q := by
  unfold pyRound
  rw [if_pos h]
  exact Int.le_floor.mpr (by push_cast; linarith)

theorem pyRound_mono {x y : ℚ} (h : x ≤ y) : pyRound x ≤ pyRound y := by
  unfold pyRound
  split_ifs with hx hy hy
  · exact Int.floor_le_floor (by linarith)
  · linarith
  · have h1 : (0 : ℤ) ≤ ⌊y + 1/2⌋ := Int.le_floor.mpr (by push_cast; linarith)
    have h2 : (0 : ℤ) ≤ ⌊-x + 1/2⌋ := by
      push_neg at hx
      exact Int.le_floor.mpr (by push_cast; linarith)
    omega
  · have h2 : ⌊-y + 1/2⌋ ≤ ⌊-x + 1/2⌋ := Int.floor_le_floor (by linarith)
    omega

theorem pyRound1_intCast (k : ℤ) : pyRound1 (k : ℚ) = k := by
  unfold pyRound1
  rw [show ((k : ℚ) * 10) = ((k * 10 : ℤ) : ℚ) by push_cast; ring,
    pyRound_intCast]
  push_cast
  ring

theorem pyRound1_tenth (k : ℤ) : pyRound1 ((k : ℚ) / 10) = (k : ℚ) / 10 := by
  unfold pyRound1
  rw [div_mul_cancel₀ _ (by norm_num : (10 : ℚ) ≠ 0), pyRound_intCast]

theorem pyRound1_mono {x y : ℚ} (h : x ≤ y) : pyRound1 x ≤ pyRound1 y := by
  unfold pyRound1
  have := pyRound_mono (show x * 10 ≤ y * 10 by linarith)
  have h2 : ((pyRound (x * 10) : ℚ)) ≤ (pyRound (y * 10) : ℚ) := by
    exact_mod_cast this
  linarith

theorem pyRound1_nonneg {q : ℚ} (h : 0 ≤ q) : 0 ≤ pyRound1 q := by
  unfold pyRound1
  have := pyRound_nonneg (show 0 ≤ q * 10 by linarith)
  have h2 : (0 : ℚ) ≤ (pyRound (q * 10) : ℚ) := by exact_mod_cast this
  linarith

theorem computeTOF_ok (A M : ℚ) (hM : M ≠ 0) :
    computeTOF A M =
      Except.ok (if pyRound1 (A / M * 100) > 100 then 100
                 else pyRound1 (A / M * 100)) := by
  simp [computeTOF, pyDiv, hM, Except.map]

/-- C1: for analysed yearly radiation `A ≥ 0` and grid maximum `M > 0` the
computed TOF is `round(100 * A / M, 1)` clamped to at most 100, and every
TOF the code produces (for any inputs at all) is at most 100. -/
theorem tof_eq_round_clamped (A M : ℚ) (hA : 0 ≤ A) (hM : 0 < M) :
    computeTOF A M = Except.ok (min 100 (pyRound1 (100 * A / M))) ∧
    ∀ B N t : ℚ, computeTOF B N = Except.ok t → t ≤ 100 := by
  constructor
  · rw [computeTOF_ok A M hM.ne']
    have h1 : A / M * 100 = 100 * A / M := by ring
    rw [h1]
    congr 1
    split_ifs with h
    · exact (min_eq_left h.le).symm
    · push_neg at h
      exact (min_eq_right h).symm
  · intro B N t ht
    by_cases hN : N = 0
    · simp [computeTOF, pyDiv, hN, Except.map] at ht
    · rw [computeTOF_ok B N hN] at ht
      have h2 := Except.ok.inj ht
      split_ifs at h2 with h3
      · linarith [h2.symm.le]
      · push_neg at h3
        linarith [h2.symm.le]

/-- Witness for C1 at the concrete input A = 50, M = 100. -/
theorem tof_eq_round_clamped_witness :
    computeTOF 50 100 = Except.ok (min 100 (pyRound1 (100 * 50 / 100))) :=
  (tof_eq_round_clamped 50 100 (by norm_num) (by norm_num)).1

/-- C2: for every TOF value the code computes (from `A ≥ 0`, `M > 0`) and
every annual shading in `[0, 100]`, `TSRF = round(TOF * (100 - s) / 100, 1)`
and `TSRF ≤ TOF`; shading 100 yields TSRF = 0 regardless of TOF. -/
theorem tsrf_formula_and_bound (A M s : ℚ) (hA : 0 ≤ A) (hM : 0 < M)
    (hs0 : 0 ≤ s) (hs1 : s ≤ 100) :
    (∀ t : ℚ, computeTOF A M = Except.ok t →
      computeTSRF t s = pyRound1 (t * ((100 - s) / 100)) ∧
      computeTSRF t s ≤ t) ∧
    ∀ t : ℚ, computeTSRF t 100 = 0 := by
  constructor
  · intro t ht
    refine ⟨rfl, ?_⟩
    rw [computeTOF_ok A M hM.ne'] at ht
    have hform := Except.ok.inj ht
    obtain ⟨k, hk0, hk⟩ : ∃ k : ℤ, 0 ≤ (k : ℚ) ∧ t = (k : ℚ) / 10 := by
      rw [← hform]
      split_ifs
      · exact ⟨1000, by norm_num, by norm_num⟩
      · refine ⟨pyRound (A / M * 100 * 10), ?_, rfl⟩
        have h4 : (0 : ℚ) ≤ A / M * 100 * 10 := by positivity
        exact_mod_cast pyRound_nonneg h4
    subst hk
    unfold computeTSRF
    have h1 : (k : ℚ) / 10 * ((100 - s) / 100) ≤ (k : ℚ) / 10 := by
      apply mul_le_of_le_one_right (div_nonneg hk0 (by norm_num))
      rw [div_le_one (by norm_num : (0 : ℚ) < 100)]
      linarith
    calc pyRound1 ((k : ℚ) / 10 * ((100 - s) / 100))
        ≤ pyRound1 ((k : ℚ) / 10) := pyRound1_mono h1
      _ = (k : ℚ) / 10 := pyRound1_tenth k
  · intro t
    unfold computeTSRF
    have h5 : t * ((100 - 100) / 100) = 0 := by ring
    rw [h5]
    simpa using pyRound1_intCast 0

/-- Witness for C2 at A = 50, M = 100, s = 20 (and shading 100 with TOF 7). -/
theorem tsrf_formula_and_bound_witness :
    (computeTSRF 50 20 = pyRound1 (50 * ((100 - 20) / 100)) ∧
      computeTSRF 50 20 ≤ 50) ∧ computeTSRF 7 100 = 0 := by
  have h := tsrf_formula_and_bound 50 100 20 (by norm_num) (by norm_num)
    (by norm_num) (by norm_num)
  have h50 : computeTOF 50 100 = Except.ok 50 := by
    rw [computeTOF_ok 50 100 (by norm_num)]
    norm_num [pyRound1, pyRound]
  exact ⟨h.1 50 h50, h.2 7⟩

/-- C3 (amended): both sample lists have precision+1 entries; the tilt
entries are `i * (90 / precision)` with `/` the Python 2 integer floor
division, so the last tilt is `precision * (90 / precision)` (only 90 when
precision divides 90); the counterclockwise azimuth entries for
latitude ≥ 0 are `90 + i * (180 / precision)` and for latitude < 0 are
`270 + i * (180 / precision)` wrapped at 360; the clockwise list is the
reverse of the counterclockwise list. -/
theorem grid_lists_structure (p : ℕ) (latitude : ℚ) (hp1 : 1 ≤ p)
    (hp2 : p ≤ 100) :
    (srfTiltTOFList p).length = p + 1 ∧
    (∀ cw : Bool, (srfAzimuthTOFList cw latitude p).length = p + 1) ∧
    (∀ i, i < p + 1 → (srfTiltTOFList p)[i]? = some (90 / p * i)) ∧
    (srfTiltTOFList p).getLast? = some (90 / p * p) ∧
    (0 ≤ latitude → ∀ i, i < p + 1 →
      (srfAzimuthTOFList false latitude p)[i]? = some (90 + 180 / p * i)) ∧
    (latitude < 0 → ∀ i, i < p + 1 →
      (srfAzimuthTOFList false latitude p)[i]? =
        some (azimuthWrap (270 + 180 / p * (p - i)))) ∧
    srfAzimuthTOFList true latitude p =
      (srfAzimuthTOFList false latitude p).reverse := by
  have efalse : srfAzimuthTOFList false latitude p =
      if 0 ≤ latitude then
        (List.range (p + 1)).map (fun i => 90 + stepSrfAzimuth p * i)
      else
        ((List.range (p + 1)).reverse).map
          (fun i => azimuthWrap (270 + stepSrfAzimuth p * i)) := rfl
  have etrue : srfAzimuthTOFList true latitude p =
      if 0 ≤ latitude then
        ((List.range (p + 1)).reverse).map (fun i => 90 + stepSrfAzimuth p * i)
      else
        (List.range (p + 1)).map
          (fun i => azimuthWrap (270 + stepSrfAzimuth p * i)) := rfl
  refine ⟨?_, ?_, ?_, ?_, ?_, ?_, ?_⟩
  · simp [srfTiltTOFList]
  · intro cw
    cases cw
    · rw [efalse]
      split_ifs <;> simp
    · rw [etrue]
      split_ifs <;> simp
  · intro i hi
    simp [srfTiltTOFList, stepSrfTilt, hi]
  · rw [srfTiltTOFList, List.range_succ, List.map_append]
    simp [stepSrfTilt]
  · intro hlat i hi
    rw [efalse, if_pos hlat]
    simp [stepSrfAzimuth, hi]
  · intro hlat i hi
    rw [efalse, if_neg (not_le.mpr hlat), List.map_reverse]
    rw [List.getElem?_reverse (by simpa using hi)]
    have h2 : p - i < p + 1 := by omega
    simp [stepSrfAzimuth, h2]
  · rw [etrue, efalse]
    by_cases hlat : 0 ≤ latitude
    · rw [if_pos hlat, if_pos hlat, List.map_reverse]
    · rw [if_neg hlat, if_neg hlat, List.map_reverse, List.reverse_reverse]

/-- Witness for C3 at precision 2, latitude 40. -/
theorem grid_lists_structure_witness :
    (srfTiltTOFList 2).length = 2 + 1 ∧
    srfAzimuthTOFList true 40 2 = (srfAzimuthTOFList false 40 2).reverse := by
  have h := grid_lists_structure 2 40 (by norm_num) (by norm_num)
  exact ⟨h.1, h.2.2.2.2.2.2⟩

/-- C3 counterexample: at precision 7 the tilt list is built with the
integer step `90/7 = 12` and ends at 84, not 90, and is not uniformly
stepped by the real quotient 90/7; likewise the azimuth window ends at
265, not 270.  This refutes the claim's "stepped by 90/precision from 0 up
to 90" / "spanning the window 90°..270°" reading for precisions that do
not divide 90 (respectively 180). -/
theorem grid_lists_claim_false_at_seven :
    srfTiltTOFList 7 = [0, 12, 24, 36, 48, 60, 72, 84] ∧
    (srfTiltTOFList 7).getLast? ≠ some 90 ∧
    srfAzimuthTOFList false 40 7 = [90, 115, 140, 165, 190, 215, 240, 265] ∧
    (srfAzimuthTOFList false 40 7).getLast? ≠ some 270 := by
  refine ⟨?_, ?_, ?_, ?_⟩ <;> decide

theorem foldl_add_const (c : ℚ) : ∀ (l : List ℕ) (init : ℚ),
    l.foldl (fun acc _ => acc + c) init = init + l.length * c := by
  intro l
  induction l with
  | nil => intro init; simp
  | cons x xs ih =>
    intro init
    rw [List.foldl_cons, ih]
    simp only [List.length_cons]
    push_cast
    ring

theorem foldl_add_nonneg (f : ℕ → ℚ) (hf : ∀ g, 0 ≤ f g) :
    ∀ (l : List ℕ) (init : ℚ),
      init ≤ l.foldl (fun acc g => acc + f g) init := by
  intro l
  induction l with
  | nil => intro init; simp
  | cons x xs ih =>
    intro init
    rw [List.foldl_cons]
    calc init ≤ init + f x := by linarith [hf x]
      _ ≤ _ := ih (init + f x)

theorem pyMax_singleton (x : ℚ) : pyMax [x] = x := rfl

theorem le_foldl_max : ∀ (l : List ℚ) (a : ℚ), a ≤ l.foldl max a := by
  intro l
  induction l with
  | nil => intro a; simp
  | cons x xs ih =>
    intro a
    rw [List.foldl_cons]
    exact le_trans (le_max_left a x) (ih (max a x))

theorem gridCellTotal_nonneg (E : ℕ → ℚ → ℚ → ℚ) (hE : EpoaNonneg E)
    (t a : ℚ) : 0 ≤ gridCellTotal E t a := by
  unfold gridCellTotal
  have h := foldl_add_nonneg (fun g => E g t a) (fun g => hE g t a)
    (List.range 8760) 0
  simpa using h

theorem gridCellTotal_const (c t a : ℚ) :
    gridCellTotal (fun _ _ _ => c) t a = 8760 * c := by
  unfold gridCellTotal
  have h := foldl_add_const c (List.range 8760) 0
  simpa using h

theorem gridCellTotal_zeroE (t a : ℚ) : gridCellTotal zeroE t a = 0 := by
  have h : gridCellTotal (fun _ _ _ => (0 : ℚ)) t a = 8760 * 0 :=
    gridCellTotal_const 0 t a
  simpa using h

theorem gridCellTotal_oneE (t a : ℚ) : gridCellTotal oneE t a = 8760 := by
  have h : gridCellTotal (fun _ _ _ => (1 : ℚ)) t a = 8760 * 1 :=
    gridCellTotal_const 1 t a
  simpa using h

/-- C4: if the grid maximum yearly radiation is ≤ 0 then — since every
grid-cell total is a sum of spec-nonnegative hourly Epoa values, so the
maximum is exactly 0 — the TOF computation raises a
ZeroDivisionError-class error and never silently produces a number. -/
theorem tof_error_on_nonpositive_max (E : ℕ → ℚ → ℚ → ℚ) (hE : EpoaNonneg E)
    (t0 a0 : ℚ) (tiltRest azimRest : List ℚ) (A : ℚ)
    (hmax : pyMax (gridTotals E (t0 :: tiltRest) (a0 :: azimRest)) ≤ 0) :
    computeTOF A (pyMax (gridTotals E (t0 :: tiltRest) (a0 :: azimRest))) =
      Except.error zeroDivMsg := by
  have e1 : gridTotals E (t0 :: tiltRest) (a0 :: azimRest) =
      gridCellTotal E t0 a0 ::
        (azimRest.map (fun a => gridCellTotal E t0 a) ++
          tiltRest.flatMap
            (fun t => (a0 :: azimRest).map (fun a => gridCellTotal E t a))) := by
    simp [gridTotals]
  have h0 : 0 ≤ pyMax (gridTotals E (t0 :: tiltRest) (a0 :: azimRest)) := by
    rw [e1]
    exact le_trans (gridCellTotal_nonneg E hE t0 a0) (le_foldl_max _ _)
  have heq : pyMax (gridTotals E (t0 :: tiltRest) (a0 :: azimRest)) = 0 :=
    le_antisymm hmax h0
  rw [heq]
  simp [computeTOF, pyDiv, Except.map]

/-- Witness for C4: the all-zero series on a 1x1 grid. -/
theorem tof_error_on_nonpositive_max_witness :
    computeTOF 0 (pyMax (gridTotals zeroE ((0 : ℚ) :: []) ((90 : ℚ) :: []))) =
      Except.error zeroDivMsg := by
  apply tof_error_on_nonpositive_max zeroE (fun g t a => le_refl 0) 0 90 [] [] 0
  have hg : gridTotals zeroE ((0 : ℚ) :: []) ((90 : ℚ) :: []) =
      [gridCellTotal zeroE 0 90] := by
    simp [gridTotals]
  rw [hg, gridCellTotal_zeroE]
  norm_num [pyMax]

/-- C5 (amended): if the analysed surface's tilt/azimuth coincide with a
grid cell holding the maximum yearly radiation, the analysed-surface loop
returns exactly that cell's total, and — provided the maximum is positive —
the TOF is exactly 100. -/
theorem analysed_at_optimum_tof_100 (E : ℕ → ℚ → ℚ → ℚ)
    (tiltList azimuthList : List ℚ) (t a : ℚ)
    (ht : t ∈ tiltList) (ha : a ∈ azimuthList)
    (hmax : pyMax (gridTotals E tiltList azimuthList) = gridCellTotal E t a)
    (hpos : 0 < gridCellTotal E t a) :
    analysedTotal E t a = gridCellTotal E t a ∧
    computeTOF (analysedTotal E t a)
      (pyMax (gridTotals E tiltList azimuthList)) = Except.ok 100 := by
  have heq : analysedTotal E t a = gridCellTotal E t a := rfl
  refine ⟨heq, ?_⟩
  rw [heq, hmax, computeTOF_ok _ _ hpos.ne', div_self hpos.ne']
  rw [show ((1 : ℚ) * 100) = ((100 : ℤ) : ℚ) by norm_num, pyRound1_intCast]
  norm_num

/-- Witness for C5: a constant irradiance series on a 1x1 grid. -/
theorem analysed_at_optimum_tof_100_witness :
    analysedTotal oneE 0 180 = gridCellTotal oneE 0 180 ∧
    computeTOF (analysedTotal oneE 0 180)
      (pyMax (gridTotals oneE ((0 : ℚ) :: []) ((180 : ℚ) :: []))) =
      Except.ok 100 := by
  apply analysed_at_optimum_tof_100 oneE [0] [180] 0 180 (by simp) (by simp)
  · have hg : gridTotals oneE ((0 : ℚ) :: []) ((180 : ℚ) :: []) =
        [gridCellTotal oneE 0 180] := by
      simp [gridTotals]
    rw [hg, pyMax_singleton]
  · rw [gridCellTotal_oneE]
    norm_num

/-- C5 counterexample: an all-zero weather series is a legitimate weather
series for which the analysed surface sits exactly on a maximal grid cell,
yet the code raises ZeroDivisionError instead of reporting TOF = 100. -/
theorem analysed_at_optimum_zero_weather :
    (0 : ℚ) ∈ [(0 : ℚ), 45, 90] ∧ (90 : ℚ) ∈ [(90 : ℚ), 180, 270] ∧
    pyMax (gridTotals zeroE [(0 : ℚ), 45, 90] [(90 : ℚ), 180, 270]) =
      gridCellTotal zeroE 0 90 ∧
    analysedTotal zeroE 0 90 = gridCellTotal zeroE 0 90 ∧
    ∀ q : ℚ, computeTOF (analysedTotal zeroE 0 90)
      (pyMax (gridTotals zeroE [(0 : ℚ), 45, 90] [(90 : ℚ), 180, 270])) ≠
        Except.ok q := by
  have hg : gridTotals zeroE [(0 : ℚ), 45, 90] [(90 : ℚ), 180, 270] =
      [0, 0, 0, 0, 0, 0, 0, 0, 0] := by
    simp [gridTotals, gridCellTotal_zeroE]
  refine ⟨by simp, by simp, ?_, rfl, ?_⟩
  · rw [hg, gridCellTotal_zeroE]
    simp [pyMax]
  · intro q
    have ha : analysedTotal zeroE 0 90 = 0 := gridCellTotal_zeroE 0 90
    rw [ha, hg]
    simp [pyMax, computeTOF, pyDiv, Except.map]


theorem pyRound1_tenths (x : ℚ) : ∃ k : ℤ, pyRound1 x = (k : ℚ) / 10 :=
  ⟨pyRound (x * 10), rfl⟩

theorem pyRound1_zero : pyRound1 0 = 0 := by
  simpa using pyRound1_intCast 0

theorem pyRound1_oneeighty : pyRound1 180 = 180 := by
  have h := pyRound1_intCast 180
  norm_num at h
  exact h

/-- C6: with valid weather data, an absent or out-of-range albedo,
annualShading or precision input is silently replaced by its documented
default (0.2, 0 and 2 respectively) — the run proceeds with the
substituted value instead of failing, and in-range values are kept. -/
theorem input_defaults (a s p : ℚ) :
    (a < 0 ∨ a > 1 → albedoDefaulted (some a) = 1/5) ∧
    albedoDefaulted none = 1/5 ∧
    (s < 0 ∨ s > 100 → annualShadingDefaulted (some s) = 0) ∧
    annualShadingDefaulted none = 0 ∧
    (p < 1 ∨ p > 100 → precisionDefaulted (some p) = 2) ∧
    precisionDefaulted none = 2 ∧
    (¬(a < 0 ∨ a > 1) → albedoDefaulted (some a) = a) ∧
    (¬(s < 0 ∨ s > 100) → annualShadingDefaulted (some s) = s) ∧
    (¬(p < 1 ∨ p > 100) → precisionDefaulted (some p) = p) := by
  refine ⟨?_, rfl, ?_, rfl, ?_, rfl, ?_, ?_, ?_⟩ <;> intro h <;>
    simp [albedoDefaulted, annualShadingDefaulted, precisionDefaulted, h]

/-- Witness for C6 at albedo 2, shading 150, precision 0. -/
theorem input_defaults_witness :
    albedoDefaulted (some 2) = 1/5 ∧ annualShadingDefaulted (some 150) = 0 ∧
    precisionDefaulted (some 0) = 2 := by
  have h := input_defaults 2 150 0
  exact ⟨h.1 (Or.inr (by norm_num)), h.2.2.1 (Or.inr (by norm_num)),
    h.2.2.2.2.1 (Or.inl (by norm_num))⟩

/-- C7 (amended): an explicitly supplied tilt outside [0,180] is reset to
0 (not clamped to the nearest bound); an explicit azimuth outside [0,360]
is reset to the hemisphere default (180 for latitude > 0, 0 for
latitude < 0); in-range explicit values are used after rounding to one
decimal place (not bit-for-bit unchanged). -/
theorem tilt_azimuth_reset_policy (bt : ℚ) (ba : ℚ × Option ℚ)
    (tc : Option ℚ) (ty : PVInputType) (lat : ℚ) :
    (∀ v : ℚ, v < 0 ∨ v > 180 → srfTiltAngle bt (some v) tc ty lat = some 0) ∧
    (∀ v : ℚ, 0 ≤ v → v ≤ 180 →
      srfTiltAngle bt (some v) tc ty lat = some (pyRound1 v)) ∧
    (∀ a : ℚ, a < 0 ∨ a > 360 → 0 < lat →
      srfAzimuthAngle ba (some a) ty lat = some (180, none)) ∧
    (∀ a : ℚ, a < 0 ∨ a > 360 → lat < 0 →
      srfAzimuthAngle ba (some a) ty lat = some (0, none)) ∧
    (∀ a : ℚ, 0 ≤ a → a ≤ 360 →
      srfAzimuthAngle ba (some a) ty lat = some (pyRound1 a, none)) := by
  refine ⟨?_, ?_, ?_, ?_, ?_⟩
  · intro v hv
    rcases hv with h | h
    · simp [srfTiltAngle, h, pyRound1_zero]
    · simp [srfTiltAngle, h, not_lt_of_lt (by linarith : (0 : ℚ) < v),
        pyRound1_zero]
  · intro v h0 h180
    simp [srfTiltAngle, not_lt.mpr h0, not_lt.mpr h180]
  · intro a ha hlat
    simp [srfAzimuthAngle, ha, hlat, pyRound1_oneeighty]
  · intro a ha hlat
    simp [srfAzimuthAngle, ha, not_lt_of_lt hlat, hlat, pyRound1_zero]
  · intro a h0 h360
    have h : ¬(a < 0 ∨ a > 360) := by
      push_neg
      exact ⟨h0, h360⟩
    simp [srfAzimuthAngle, h]

/-- Witness for C7: tilt 200 resets to 0, azimuth 400 at latitude 40
resets to 180. -/
theorem tilt_azimuth_reset_policy_witness :
    srfTiltAngle 0 (some 200) none PVInputType.number 40 = some 0 ∧
    srfAzimuthAngle (0, none) (some 400) PVInputType.number 40 =
      some (180, none) := by
  have h := tilt_azimuth_reset_policy 0 (0, none) none PVInputType.number 40
  exact ⟨h.1 200 (Or.inr (by norm_num)),
    h.2.2.1 400 (Or.inr (by norm_num)) (by norm_num)⟩

/-- C7 counterexample: the in-range tilt 0.25 is not used unchanged; the
resolver returns `round(0.25, 1) = 0.3` (Python 2 rounds ties away from
zero), so "values inside the ranges are used unchanged" is false. -/
theorem tilt_rounding_changes_value :
    srfTiltAngle 0 (some (1/4)) none PVInputType.number 40 = some (3/10) ∧
    srfTiltAngle 0 (some (1/4)) none PVInputType.number 40 ≠ some (1/4) := by
  constructor
  · norm_num [srfTiltAngle, pyRound1, pyRound]
  · norm_num [srfTiltAngle, pyRound1, pyRound]

/-- C10: at latitude exactly 0, both azimuth-defaulting sites cover only
`latitude > 0` and `latitude < 0`, so an explicit azimuth outside [0,360]
or a missing azimuth with a numeric-area surface input makes
`srfAzimuthAngle` fail with an unbound-variable error; for every nonzero
latitude the function is total and returns a one-decimal-rounded azimuth. -/
theorem azimuth_default_latitude_zero (ba : ℚ × Option ℚ)
    (ty : PVInputType) :
    (∀ az : ℚ, az < 0 ∨ az > 360 →
      srfAzimuthAngle ba (some az) ty 0 = none) ∧
    srfAzimuthAngle ba none PVInputType.number 0 = none ∧
    (∀ lat : ℚ, lat ≠ 0 → ∀ az : Option ℚ, ∃ r tc,
      srfAzimuthAngle ba az ty lat = some (r, tc) ∧
      ∃ k : ℤ, r = (k : ℚ) / 10) := by
  refine ⟨?_, ?_, ?_⟩
  · intro az h
    simp [srfAzimuthAngle, h]
  · simp [srfAzimuthAngle]
  · intro lat hlat az
    rcases az with _ | a
    · cases ty with
      | brep =>
        exact ⟨pyRound1 ba.1, ba.2, by simp [srfAzimuthAngle],
          pyRound1_tenths ba.1⟩
      | number =>
        rcases hlat.lt_or_lt with h | h
        · refine ⟨pyRound1 0, none, ?_, pyRound1_tenths 0⟩
          simp [srfAzimuthAngle, not_lt_of_lt h, h]
        · refine ⟨pyRound1 180, none, ?_, pyRound1_tenths 180⟩
          simp [srfAzimuthAngle, h]
    · by_cases hc : a < 0 ∨ a > 360
      · rcases hlat.lt_or_lt with h | h
        · refine ⟨pyRound1 0, none, ?_, pyRound1_tenths 0⟩
          simp [srfAzimuthAngle, hc, not_lt_of_lt h, h]
        · refine ⟨pyRound1 180, none, ?_, pyRound1_tenths 180⟩
          simp [srfAzimuthAngle, hc, h]
      · exact ⟨pyRound1 a, none, by simp [srfAzimuthAngle, hc],
          pyRound1_tenths a⟩

/-- Witness for C10: azimuth 400 and a missing azimuth both fail at
latitude 0; at latitude 40 the resolver is total. -/
theorem azimuth_default_latitude_zero_witness :
    srfAzimuthAngle (0, none) (some 400) PVInputType.number 0 = none ∧
    srfAzimuthAngle (0, none) none PVInputType.number 0 = none ∧
    ∃ r tc, srfAzimuthAngle (0, none) none PVInputType.number 40 =
      some (r, tc) ∧ ∃ k : ℤ, r = (k : ℚ) / 10 := by
  have h := azimuth_default_latitude_zero (0, none) PVInputType.number
  exact ⟨h.1 400 (Or.inr (by norm_num)), h.2.1, h.2.2 40 (by norm_num) none⟩


theorem digitChar_ne_dot (n : ℕ) (h : n < 10) : Nat.digitChar n ≠ '.' := by
  interval_cases n <;> decide

theorem toDigitsCore_ne_dot :
    ∀ (fuel n : ℕ) (ds : List Char), (∀ c ∈ ds, c ≠ '.') →
      ∀ c ∈ Nat.toDigitsCore 10 fuel n ds, c ≠ '.' := by
  intro fuel
  induction fuel with
  | zero =>
    intro n ds h c hc
    exact h c hc
  | succ f ih =>
    intro n ds h c hc
    rw [Nat.toDigitsCore] at hc
    by_cases h0 : n / 10 = 0
    · rw [if_pos h0] at hc
      rcases List.mem_cons.mp hc with h1 | h1
      · subst h1
        exact digitChar_ne_dot (n % 10) (Nat.mod_lt n (by norm_num))
      · exact h c h1
    · rw [if_neg h0] at hc
      refine ih (n / 10) (Nat.digitChar (n % 10) :: ds) ?_ c hc
      intro d hd
      rcases List.mem_cons.mp hd with h1 | h1
      · subst h1
        exact digitChar_ne_dot (n % 10) (Nat.mod_lt n (by norm_num))
      · exact h d h1

theorem natRepr_ne_dot (n : ℕ) : ∀ c ∈ (Nat.repr n).data, c ≠ '.' := by
  intro c hc
  exact toDigitsCore_ne_dot (n + 1) n [] (by simp) c hc

theorem intToString_ne_dot (i : ℤ) : ∀ c ∈ (toString i).data, c ≠ '.' := by
  cases i with
  | ofNat m =>
    intro c hc
    exact natRepr_ne_dot m c hc
  | negSucc m =>
    intro c hc
    have h2 : (toString (Int.negSucc m)).data =
        '-' :: (Nat.repr (m + 1)).data := rfl
    rw [h2] at hc
    rcases List.mem_cons.mp hc with h1 | h1
    · subst h1
      decide
    · exact natRepr_ne_dot (m + 1) c h1

theorem dot_mem_natDecimalStr (a : ℕ) : '.' ∈ (natDecimalStr a).data := by
  unfold natDecimalStr
  have hdot : ('.' : Char) ∈ ("." : String).data := List.mem_cons_self '.' []
  split_ifs <;>
    simp only [String.data_append, List.mem_append] <;>
    exact Or.inl (Or.inr hdot)

theorem dot_mem_pyFloatStr (q : ℚ) : '.' ∈ (pyFloatStr q).data := by
  unfold pyFloatStr
  simp only [String.data_append, List.mem_append]
  exact Or.inr (dot_mem_natDecimalStr _)

/-- C8: the roof-pitch output is the string `N/12` where `N` carries the
value `round(12 * tan(optimalTilt), 2)`, and `N` is rendered with no
decimal point exactly when that value is a whole number (in which case the
code converts it with `int()`). -/
theorem roof_pitch_format (optimalTiltTangent : ℚ) :
    optimalRoofPitch optimalTiltTangent =
      pyStrNum (optimalTiltNumerator optimalTiltTangent) ++ "/12" ∧
    pyNumVal (optimalTiltNumerator optimalTiltTangent) =
      pyRound2 (12 * optimalTiltTangent) ∧
    ((optimalTiltNumerator optimalTiltTangent).isInt = true ↔
      ∃ k : ℤ, pyRound2 (12 * optimalTiltTangent) = (k : ℚ)) ∧
    ((∀ c ∈ (pyStrNum (optimalTiltNumerator optimalTiltTangent)).data,
        c ≠ '.') ↔
      ∃ k : ℤ, pyRound2 (12 * optimalTiltTangent) = (k : ℚ)) := by
  by_cases hd : (pyRound2 (12 * optimalTiltTangent)).den = 1
  · have he : optimalTiltNumerator optimalTiltTangent =
        PyNum.int (pyRound2 (12 * optimalTiltTangent)).num := by
      simp [optimalTiltNumerator, hd]
    have hex : ∃ k : ℤ, pyRound2 (12 * optimalTiltTangent) = (k : ℚ) :=
      ⟨(pyRound2 (12 * optimalTiltTangent)).num,
        (Rat.coe_int_num_of_den_eq_one hd).symm⟩
    refine ⟨rfl, ?_, ?_, ?_⟩
    · rw [he]
      exact Rat.coe_int_num_of_den_eq_one hd
    · rw [he]
      simp [PyNum.isInt, hex]
    · rw [he]
      constructor
      · intro _
        exact hex
      · intro _ c hc
        exact intToString_ne_dot _ c hc
  · have he : optimalTiltNumerator optimalTiltTangent =
        PyNum.float (pyRound2 (12 * optimalTiltTangent)) := by
      simp [optimalTiltNumerator, hd]
    have hnex : ¬∃ k : ℤ, pyRound2 (12 * optimalTiltTangent) = (k : ℚ) := by
      rintro ⟨k, hk⟩
      exact hd (by rw [hk]; exact Rat.den_intCast k)
    refine ⟨rfl, ?_, ?_, ?_⟩
    · rw [he]
      rfl
    · rw [he]
      simp [PyNum.isInt, hnex]
    · rw [he]
      constructor
      · intro hall
        exact ((hall '.' (dot_mem_pyFloatStr _)) rfl).elim
      · intro hk
        exact absurd hk hnex

/-- Witness for C8 at tangent 3/10 (numerator 3.6, float-formatted). -/
theorem roof_pitch_format_witness :
    optimalRoofPitch (3/10) =
      pyStrNum (optimalTiltNumerator (3/10)) ++ "/12" ∧
    pyNumVal (optimalTiltNumerator (3/10)) = pyRound2 (12 * (3/10)) ∧
    ((optimalTiltNumerator (3/10)).isInt = true ↔
      ∃ k : ℤ, pyRound2 (12 * (3/10)) = (k : ℚ)) ∧
    ((∀ c ∈ (pyStrNum (optimalTiltNumerator (3/10))).data, c ≠ '.') ↔
      ∃ k : ℤ, pyRound2 (12 * (3/10)) = (k : ℚ)) :=
  roof_pitch_format (3/10)


theorem mainNumeric_ignores_corrected (G : List ℚ → ℚ × ℚ) (tanD : ℚ → ℚ)
    (E : ℕ → ℚ → ℚ → ℚ) (tiltList azimuthList : List ℚ)
    (srfTiltD srfAzimuthD c1 c2 s : ℚ) :
    mainNumeric G tanD E tiltList azimuthList srfTiltD srfAzimuthD c1 s =
      mainNumeric G tanD E tiltList azimuthList srfTiltD srfAzimuthD c2 s :=
  rfl

/-- C9: two runs that differ only in the north_ input produce identical
numeric outputs whenever both norths pass the range check (absent, vector,
or numeric in [0,360]) — `correctedSrfAzimuthD` is computed and passed to
`main` but never used; a numeric north outside [0,360], however, makes the
run abort with a ValueError (the error path returns 3 values into a
4-name unpacking), so that run produces no outputs at all. -/
theorem north_independence (G : List ℚ → ℚ × ℚ) (tanD : ℚ → ℚ)
    (E : ℕ → ℚ → ℚ → ℚ) (tiltList azimuthList : List ℚ)
    (srfTiltD srfAzimuthD annualShading : ℚ) (n1 n2 : NorthInput)
    (h1 : validNorthInput n1) (h2 : validNorthInput n2) :
    runPipeline G tanD E tiltList azimuthList srfTiltD srfAzimuthD
        annualShading n1 =
      runPipeline G tanD E tiltList azimuthList srfTiltD srfAzimuthD
        annualShading n2 ∧
    ∀ x : ℚ, x < 0 ∨ x > 360 →
      runPipeline G tanD E tiltList azimuthList srfTiltD srfAzimuthD
        annualShading (NorthInput.num x) = Except.error valueErrorMsg := by
  constructor
  · have key : ∀ n : NorthInput, validNorthInput n → ∃ c d,
        correctSrfAzimuthDforNorth n srfAzimuthD = Except.ok (c, d) := by
      intro n hn
      cases n with
      | none => exact ⟨srfAzimuthD, 0, rfl⟩
      | num x =>
        have hx : ¬(x < 0 ∨ x > 360) := by
          push_neg
          exact hn
        exact ⟨if x + srfAzimuthD > 360 then x + srfAzimuthD - 360
          else x + srfAzimuthD, x, by simp [correctSrfAzimuthDforNorth, hx]⟩
      | vec d =>
        exact ⟨if (360 - d) + srfAzimuthD > 360 then (360 - d) + srfAzimuthD - 360
          else (360 - d) + srfAzimuthD, 360 - d, rfl⟩
    obtain ⟨c1, d1, e1⟩ := key n1 h1
    obtain ⟨c2, d2, e2⟩ := key n2 h2
    unfold runPipeline
    rw [e1, e2]
    exact mainNumeric_ignores_corrected G tanD E tiltList azimuthList
      srfTiltD srfAzimuthD c1 c2 annualShading
  · intro x hx
    unfold runPipeline
    rw [show correctSrfAzimuthDforNorth (NorthInput.num x) srfAzimuthD =
        Except.error valueErrorMsg from by
      simp [correctSrfAzimuthDforNorth, hx]]


/-- Witness for C9: north 10 versus absent north agree; north 400 aborts. -/
theorem north_independence_witness :
    runPipeline G0 tanD0 oneE ((0 : ℚ) :: []) ((180 : ℚ) :: []) 0 180 0
        (NorthInput.num 10) =
      runPipeline G0 tanD0 oneE ((0 : ℚ) :: []) ((180 : ℚ) :: []) 0 180 0
        NorthInput.none ∧
    runPipeline G0 tanD0 oneE ((0 : ℚ) :: []) ((180 : ℚ) :: []) 0 180 0
        (NorthInput.num 400) = Except.error valueErrorMsg := by
  have h := north_independence G0 tanD0 oneE ((0 : ℚ) :: []) ((180 : ℚ) :: [])
    0 180 0 (NorthInput.num 10) NorthInput.none
    (by constructor <;> norm_num) trivial
  exact ⟨h.1, h.2 400 (Or.inr (by norm_num))⟩
